import Mathlib

/-!
Verification of the users controller
(`src/api/components/users/users-controller.js`).

The controller file is the only source of the repository available; the
collaborators it requires (`users-service`, the password utility and the
error responder) are declared by the spec but their code is not present.
The six request handlers are embedded faithfully from the controller
source as functions of the outcomes of their collaborator calls; the
service layer and the password utility are modelled from the spec and
composed with the handlers for the stateful properties.
-/

/-- A stored user record: identifier, name, email and (hashed) password,
as described by the spec's data model. -/
structure User where
  id : String
  name : String
  email : String
  password : String
deriving DecidableEq, Repr

/-- A JavaScript lookup result as seen by the controller: the service may
hand back a user object, `null`, or `undefined`; the controller branches
on `!user` (falsiness) in some places and on `user !== null` in others,
so the embedding keeps the distinction. -/
inductive JSLookup where
  | jsNull
  | jsUndefined
  | found (u : User)
deriving DecidableEq, Repr

/-- JavaScript falsiness of a lookup result: `null` and `undefined` are
falsy, a user object is truthy. This is the `!user` test of the source. -/
def JSLookup.isFalsy : JSLookup → Bool
  | .jsNull => true
  | .jsUndefined => true
  | .found _ => false

/-- The error kinds of `errorTypes` used by this controller. -/
inductive ErrKind where
  | UNPROCESSABLE_ENTITY
  | INVALID_PASSWORD
  | EMAIL_ALREADY_TAKEN
  | SERVER
deriving DecidableEq, Repr

/-- A typed error as built by `errorResponder(kind, message)`. -/
structure TypedError where
  kind : ErrKind
  message : String
deriving DecidableEq, Repr

/-- A JavaScript exception reaching a handler's `catch` block: either a
typed error thrown by the handler itself, or an arbitrary exception
thrown by a collaborator (tagged by an opaque string). -/
inductive Exn where
  | typed (e : TypedError)
  | thrown (tag : String)
deriving DecidableEq, Repr

/-- The observable outcome of one handler invocation: it either sends a
single 200 JSON response with a body, or forwards an error to the next
middleware via `next(error)`. -/
inductive HandlerAction (β : Type) where
  | send200 (body : β)
  | callNext (e : Exn)
deriving DecidableEq, Repr

/-- A call made to the users service, with its arguments, recorded in the
order the handler issues it. -/
inductive SvcCall where
  | getUsers
  | getUser (id : String)
  | getUserByEmail (email : String)
  | createUser (name email password : String)
  | updateUser (id name email : String)
  | deleteUser (id : String)
  | updatePassword (id password : String)
deriving DecidableEq, Repr

/-- Body of a successful `createUser` response: exactly `{name, email}`
(the password has no field here, matching the source's response). -/
structure CreateUserBody where
  name : String
  email : String
deriving DecidableEq, Repr

/-- Body of a successful `updateUser` or `deleteUser` response: `{id}`. -/
structure IdBody where
  id : String
deriving DecidableEq, Repr

/-- Body of a successful `updatePassword` response: exactly
`{id, password_new, message}` as in the source. -/
structure UpdatePasswordBody where
  id : String
  password_new : String
  message : String
deriving DecidableEq, Repr

/-- Request body of `createUser`. -/
structure CreateUserReq where
  name : String
  email : String
  password : String
  password_confirm : String
deriving DecidableEq, Repr

/-- Request of `updateUser`: path parameter `id` plus body fields. -/
structure UpdateUserReq where
  id : String
  name : String
  email : String
deriving DecidableEq, Repr

/-- Request of `updatePassword`: path parameter `id` plus body fields. -/
structure UpdatePasswordReq where
  id : String
  password_old : String
  password_new : String
  password_new_confirm : String
deriving DecidableEq, Repr

namespace UsersController

/-- Handler `getUsers` (controller lines 13-20), as a function of the
outcome of the `usersService.getUsers()` call: on success it sends the
collection as the 200 body, and any exception is forwarded to `next`. -/
def getUsers (res : Except Exn (List User)) :
    HandlerAction (List User) × List SvcCall :=
  match res with
  | .ok users => (.send200 users, [.getUsers])
  | .error e => (.callNext e, [.getUsers])

/-- Handler `getUser` (controller lines 29-41), as a function of the
outcome of `usersService.getUser(request.params.id)`: a falsy result
(`!user`) raises `UNPROCESSABLE_ENTITY` "Unknown user", otherwise the
user object itself is the 200 body. -/
def getUser (id : String) (res : Except Exn JSLookup) :
    HandlerAction User × List SvcCall :=
  match res with
  | .error e => (.callNext e, [.getUser id])
  | .ok lookup =>
    match lookup with
    | .found u => (.send200 u, [.getUser id])
    | _ =>
      (.callNext (.typed ⟨.UNPROCESSABLE_ENTITY, "Unknown user"⟩),
        [.getUser id])

/-- Handler `createUser` (controller lines 50-85), as a function of the
outcomes of `getUserByEmail` and the service `createUser` call. The
source checks `password !== password_confirm` before any service call,
then branches on the lookup result being `!== null` (not on falsiness),
then on `!success`. -/
def createUser (req : CreateUserReq)
    (lookupRes : Except Exn JSLookup) (createRes : Except Exn Bool) :
    HandlerAction CreateUserBody × List SvcCall :=
  if req.password != req.password_confirm then
    (.callNext
        (.typed ⟨.INVALID_PASSWORD, "Failed to create user, password is not same"⟩),
      [])
  else
    match lookupRes with
    | .error e => (.callNext e, [.getUserByEmail req.email])
    | .ok user =>
      if user != JSLookup.jsNull then
        (.callNext
            (.typed ⟨.EMAIL_ALREADY_TAKEN,
              "Failed to create user, email is already taken"⟩),
          [.getUserByEmail req.email])
      else
        match createRes with
        | .error e =>
          (.callNext e,
            [.getUserByEmail req.email,
              .createUser req.name req.email req.password])
        | .ok success =>
          if !success then
            (.callNext (.typed ⟨.UNPROCESSABLE_ENTITY, "Failed to create user"⟩),
              [.getUserByEmail req.email,
                .createUser req.name req.email req.password])
          else
            (.send200 ⟨req.name, req.email⟩,
              [.getUserByEmail req.email,
                .createUser req.name req.email req.password])

/-- Handler `updateUser` (controller lines 94-112), as a function of the
outcome of the service `updateUser` call. -/
def updateUser (req : UpdateUserReq) (updRes : Except Exn Bool) :
    HandlerAction IdBody × List SvcCall :=
  match updRes with
  | .error e => (.callNext e, [.updateUser req.id req.name req.email])
  | .ok success =>
    if !success then
      (.callNext (.typed ⟨.UNPROCESSABLE_ENTITY, "Failed to update user"⟩),
        [.updateUser req.id req.name req.email])
    else
      (.send200 ⟨req.id⟩, [.updateUser req.id req.name req.email])

/-- Handler `deleteUser` (controller lines 121-137), as a function of the
outcome of the service `deleteUser` call. -/
def deleteUser (id : String) (delRes : Except Exn Bool) :
    HandlerAction IdBody × List SvcCall :=
  match delRes with
  | .error e => (.callNext e, [.deleteUser id])
  | .ok success =>
    if !success then
      (.callNext (.typed ⟨.UNPROCESSABLE_ENTITY, "Failed to delete user"⟩),
        [.deleteUser id])
    else
      (.send200 ⟨id⟩, [.deleteUser id])

/-- Handler `updatePassword` (controller lines 146-193), as a function of
the outcomes of `getUser`, `passwordMatched` and the service
`updatePassword` call, in the source's early-exit order: new/confirm
mismatch, then falsy user (`!user`), then `!isPasswordMatched`, then
`!isUpdatePasswordSuccess`, then the 200 response echoing
`password_new`. -/
def updatePassword (req : UpdatePasswordReq)
    (getRes : Except Exn JSLookup) (pmRes : Except Exn Bool)
    (updRes : Except Exn Bool) :
    HandlerAction UpdatePasswordBody × List SvcCall :=
  if req.password_new != req.password_new_confirm then
    (.callNext
        (.typed ⟨.INVALID_PASSWORD,
          "Failed to update password, new password is not same"⟩),
      [])
  else
    match getRes with
    | .error e => (.callNext e, [.getUser req.id])
    | .ok user =>
      if user.isFalsy then
        (.callNext (.typed ⟨.UNPROCESSABLE_ENTITY, "Unknown user"⟩),
          [.getUser req.id])
      else
        match pmRes with
        | .error e => (.callNext e, [.getUser req.id])
        | .ok matched =>
          if !matched then
            (.callNext
                (.typed ⟨.INVALID_PASSWORD,
                  "Failed to update password, wrong password"⟩),
              [.getUser req.id])
          else
            match updRes with
            | .error e =>
              (.callNext e,
                [.getUser req.id, .updatePassword req.id req.password_new])
            | .ok success =>
              if !success then
                (.callNext
                    (.typed ⟨.SERVER, "password is not updated, Something is wrong"⟩),
                  [.getUser req.id, .updatePassword req.id req.password_new])
              else
                (.send200 ⟨req.id, req.password_new,
                    "password was succesfully updated"⟩,
                  [.getUser req.id, .updatePassword req.id req.password_new])

end UsersController

/-- Modelled from the spec: how the (absent) `users-service` code signals
the absence of a user from a lookup — the spec does not fix whether it is
`null` or `undefined`, so the model is parametric in this choice. -/
inductive AbsSignal where
  | null
  | undef
deriving DecidableEq, Repr

/-- The JavaScript value used for an absent lookup result. -/
def AbsSignal.toLookup : AbsSignal → JSLookup
  | .null => .jsNull
  | .undef => .jsUndefined

/-- Encode an `Option User` lookup outcome as the JavaScript value the
controller receives, given the service's absence signal. -/
def encodeLookup (a : AbsSignal) : Option User → JSLookup
  | some u => .found u
  | none => a.toLookup

/-- Modelled from the spec: parameters of the absent collaborators — the
`PasswordUtility` (`passwordMatched`, `hashPassword`, both external and
unspecified beyond their types) and the service's absence signal. -/
structure Config where
  passwordMatched : String → String → Bool
  hashPassword : String → String
  absSignal : AbsSignal

/-- Modelled from the spec: the storage state owned by `users-service` —
a collection of user records, plus a counter for fresh identifiers. -/
structure ServiceState where
  users : List User
  nextId : Nat
deriving DecidableEq, Repr

namespace UsersService

/-- Modelled from the spec: `usersService.getUsers()` returns the full
collection. -/
def getUsers (s : ServiceState) : List User :=
  s.users

/-- Modelled from the spec: `usersService.getUser(id)` looks up the user
matching `id` in storage. -/
def getUser (s : ServiceState) (id : String) : Option User :=
  s.users.find? (fun u => u.id == id)

/-- Modelled from the spec: `usersService.getUserByEmail(email)` looks up
a user with the given email in storage. -/
def getUserByEmail (s : ServiceState) (email : String) : Option User :=
  s.users.find? (fun u => u.email == email)

/-- Modelled from the spec: `usersService.createUser(name, email,
password)` stores a new user with a fresh id, hashing the password (the
spec says the service is responsible for hashing), and reports success. -/
def createUser (cfg : Config) (s : ServiceState)
    (name email password : String) : ServiceState × Bool :=
  (⟨⟨toString s.nextId, name, email, cfg.hashPassword password⟩ :: s.users,
      s.nextId + 1⟩,
    true)

/-- Modelled from the spec: `usersService.updateUser(id, name, email)`
replaces the name and email of the user matching `id`, reporting failure
when no such user exists. No duplicate-email check is performed. -/
def updateUser (s : ServiceState) (id name email : String) :
    ServiceState × Bool :=
  if (s.users.find? (fun u => u.id == id)).isSome then
    (⟨s.users.map (fun u =>
        if u.id == id then ⟨u.id, name, email, u.password⟩ else u),
        s.nextId⟩,
      true)
  else
    (s, false)

/-- Modelled from the spec: `usersService.deleteUser(id)` removes the
user matching `id` from storage, reporting failure when no such user
exists. -/
def deleteUser (s : ServiceState) (id : String) : ServiceState × Bool :=
  if (s.users.find? (fun u => u.id == id)).isSome then
    (⟨s.users.filter (fun u => u.id != id), s.nextId⟩, true)
  else
    (s, false)

/-- Modelled from the spec: `usersService.updatePassword(id, password)`
replaces the stored credential of the user matching `id` with the hash of
the new password, reporting failure when no such user exists. -/
def updatePassword (cfg : Config) (s : ServiceState)
    (id password : String) : ServiceState × Bool :=
  if (s.users.find? (fun u => u.id == id)).isSome then
    (⟨s.users.map (fun u =>
        if u.id == id then ⟨u.id, u.name, u.email, cfg.hashPassword password⟩
        else u),
        s.nextId⟩,
      true)
  else
    (s, false)

end UsersService

/-- Outcome of one stateful handler invocation: the action sent, the
service calls made, and the storage state afterwards. -/
structure StepResult (β : Type) where
  action : HandlerAction β
  trace : List SvcCall
  state : ServiceState
deriving DecidableEq

/-- Stateful `getUsers`: the handler run against the modelled service;
storage is read-only here. -/
def getUsersStep (_cfg : Config) (s : ServiceState) :
    StepResult (List User) :=
  let r := UsersController.getUsers (.ok (UsersService.getUsers s))
  ⟨r.1, r.2, s⟩

/-- Stateful `getUser`: the handler run against the modelled service;
storage is read-only here. -/
def getUserStep (cfg : Config) (s : ServiceState) (id : String) :
    StepResult User :=
  let r := UsersController.getUser id
    (.ok (encodeLookup cfg.absSignal (UsersService.getUser s id)))
  ⟨r.1, r.2, s⟩

/-- Stateful `createUser`: the handler run against the modelled service.
Storage changes exactly when the handler actually issued the mutating
`createUser` call, which the trace records. -/
def createUserStep (cfg : Config) (s : ServiceState) (req : CreateUserReq) :
    StepResult CreateUserBody :=
  let lookup := encodeLookup cfg.absSignal
    (UsersService.getUserByEmail s req.email)
  let svc := UsersService.createUser cfg s req.name req.email req.password
  let r := UsersController.createUser req (.ok lookup) (.ok svc.2)
  ⟨r.1, r.2,
    if (SvcCall.createUser req.name req.email req.password) ∈ r.2 then svc.1
    else s⟩

/-- Stateful `updateUser`: the handler run against the modelled service.
Storage changes exactly when the handler issued the mutating call. -/
def updateUserStep (_cfg : Config) (s : ServiceState) (req : UpdateUserReq) :
    StepResult IdBody :=
  let svc := UsersService.updateUser s req.id req.name req.email
  let r := UsersController.updateUser req (.ok svc.2)
  ⟨r.1, r.2,
    if (SvcCall.updateUser req.id req.name req.email) ∈ r.2 then svc.1 else s⟩

/-- Stateful `deleteUser`: the handler run against the modelled service.
Storage changes exactly when the handler issued the mutating call. -/
def deleteUserStep (_cfg : Config) (s : ServiceState) (id : String) :
    StepResult IdBody :=
  let svc := UsersService.deleteUser s id
  let r := UsersController.deleteUser id (.ok svc.2)
  ⟨r.1, r.2, if (SvcCall.deleteUser id) ∈ r.2 then svc.1 else s⟩

/-- Stateful `updatePassword`: the handler run against the modelled
service; `passwordMatched` is evaluated on the stored credential of the
found user (its value is irrelevant on the branches where the source
never calls it). Storage changes exactly when the handler issued the
mutating call. -/
def updatePasswordStep (cfg : Config) (s : ServiceState)
    (req : UpdatePasswordReq) : StepResult UpdatePasswordBody :=
  let lookup := encodeLookup cfg.absSignal (UsersService.getUser s req.id)
  let matched := match UsersService.getUser s req.id with
    | some u => cfg.passwordMatched req.password_old u.password
    | none => false
  let svc := UsersService.updatePassword cfg s req.id req.password_new
  let r := UsersController.updatePassword req (.ok lookup)
    (.ok matched) (.ok svc.2)
  ⟨r.1, r.2,
    if (SvcCall.updatePassword req.id req.password_new) ∈ r.2 then svc.1
    else s⟩

/-- One invocation of one of the six handlers, with its request data. -/
inductive Op where
  | list
  | get (id : String)
  | create (req : CreateUserReq)
  | update (req : UpdateUserReq)
  | delete (id : String)
  | changePassword (req : UpdatePasswordReq)
deriving DecidableEq, Repr

/-- Whether an operation is an `updateUser` invocation. -/
def Op.isUpdate : Op → Bool
  | .update _ => true
  | _ => false

/-- The storage state after one handler invocation. -/
def runOp (cfg : Config) (s : ServiceState) : Op → ServiceState
  | .list => (getUsersStep cfg s).state
  | .get id => (getUserStep cfg s id).state
  | .create req => (createUserStep cfg s req).state
  | .update req => (updateUserStep cfg s req).state
  | .delete id => (deleteUserStep cfg s id).state
  | .changePassword req => (updatePasswordStep cfg s req).state

/-- The storage state after a sequence of handler invocations. -/
def runOps (cfg : Config) (s : ServiceState) : List Op → ServiceState
  | [] => s
  | op :: ops => runOps cfg (runOp cfg s op) ops

/-- The spec's invariant: a user's email is unique among stored users. -/
def EmailsUnique (s : ServiceState) : Prop :=
  (s.users.map (fun u => u.email)).Nodup

instance (s : ServiceState) : Decidable (EmailsUnique s) :=
  inferInstanceAs (Decidable (List.Nodup _))

/-- A concrete collaborator instantiation used by concrete corollaries:
string equality as credential verification, identity as hashing, and
`null` as the absence signal. -/
def exCfg : Config := ⟨fun a b => a == b, fun p => p, .null⟩

/-- The same concrete collaborators, but with `undefined` as the
service's absence signal. -/
def exCfgUndef : Config := ⟨fun a b => a == b, fun p => p, .undef⟩

/-- A concrete storage state holding two users with distinct emails. -/
def exState : ServiceState :=
  ⟨[⟨"1", "A", "a@x", "pw1"⟩, ⟨"2", "B", "b@x", "pw2"⟩], 3⟩

/-- The empty storage state. -/
def emptyState : ServiceState := ⟨[], 0⟩

example : (createUserStep exCfg exState ⟨"N", "n@x", "p", "q"⟩).trace = [] := by
  decide

example :
    (updatePasswordStep exCfg exState ⟨"1", "bad", "n", "n"⟩).action =
      .callNext
        (.typed ⟨.INVALID_PASSWORD, "Failed to update password, wrong password"⟩) := by
  decide

example :
    (createUserStep exCfgUndef emptyState ⟨"N", "e@x", "p", "p"⟩).action =
      .callNext
        (.typed ⟨.EMAIL_ALREADY_TAKEN,
          "Failed to create user, email is already taken"⟩) := by
  decide

example :
    ¬ EmailsUnique (updateUserStep exCfg exState ⟨"1", "A", "b@x"⟩).state := by
  decide

/-- C4: for every createUser request where `password !== password_confirm`,
the handler raises `INVALID_PASSWORD`, makes no service call at all
(neither the email lookup nor creation), and storage is unchanged, so no
user is created. -/
theorem createUser_password_mismatch_no_call
    (cfg : Config) (s : ServiceState) (req : CreateUserReq)
    (h : req.password ≠ req.password_confirm) :
    (createUserStep cfg s req).action =
      .callNext
        (.typed ⟨.INVALID_PASSWORD, "Failed to create user, password is not same"⟩)
    ∧ (createUserStep cfg s req).trace = []
    ∧ (createUserStep cfg s req).state = s := by
  have hb : (req.password != req.password_confirm) = true := by
    simpa [bne_iff_ne] using h
  simp [createUserStep, UsersController.createUser, hb]

/-- Concrete corollary of `createUser_password_mismatch_no_call`. -/
theorem createUser_password_mismatch_no_call_witness :
    ("p" : String) ≠ "q"
    ∧ ((createUserStep exCfg exState ⟨"N", "n@x", "p", "q"⟩).action =
        .callNext
          (.typed ⟨.INVALID_PASSWORD, "Failed to create user, password is not same"⟩)
      ∧ (createUserStep exCfg exState ⟨"N", "n@x", "p", "q"⟩).trace = []
      ∧ (createUserStep exCfg exState ⟨"N", "n@x", "p", "q"⟩).state = exState) :=
  ⟨by decide,
    createUser_password_mismatch_no_call exCfg exState ⟨"N", "n@x", "p", "q"⟩
      (by decide)⟩

/-- C1: for every updatePassword request whose new/confirm passwords
match and whose user id exists, if `password_old` does not match the
stored credential as decided by `passwordMatched`, the handler raises
`INVALID_PASSWORD` ("wrong password"), the service's `updatePassword` is
never called (the trace holds only the lookup), and storage — in
particular the stored credential — is unchanged. -/
theorem updatePassword_wrong_old_password
    (cfg : Config) (s : ServiceState) (req : UpdatePasswordReq) (u : User)
    (hmatch : req.password_new = req.password_new_confirm)
    (hfound : UsersService.getUser s req.id = some u)
    (hpm : cfg.passwordMatched req.password_old u.password = false) :
    (updatePasswordStep cfg s req).action =
      .callNext
        (.typed ⟨.INVALID_PASSWORD, "Failed to update password, wrong password"⟩)
    ∧ (updatePasswordStep cfg s req).trace = [.getUser req.id]
    ∧ (updatePasswordStep cfg s req).state = s := by
  simp [updatePasswordStep, UsersController.updatePassword, encodeLookup,
    hfound, hpm, hmatch, JSLookup.isFalsy]

/-- Concrete corollary of `updatePassword_wrong_old_password`. -/
theorem updatePassword_wrong_old_password_witness :
    (("n" : String) = "n"
      ∧ UsersService.getUser exState "1" = some ⟨"1", "A", "a@x", "pw1"⟩
      ∧ exCfg.passwordMatched "bad" "pw1" = false)
    ∧ ((updatePasswordStep exCfg exState ⟨"1", "bad", "n", "n"⟩).action =
        .callNext
          (.typed ⟨.INVALID_PASSWORD, "Failed to update password, wrong password"⟩)
      ∧ (updatePasswordStep exCfg exState ⟨"1", "bad", "n", "n"⟩).trace =
          [.getUser "1"]
      ∧ (updatePasswordStep exCfg exState ⟨"1", "bad", "n", "n"⟩).state = exState) :=
  ⟨⟨by decide, by decide, by decide⟩,
    updatePassword_wrong_old_password exCfg exState ⟨"1", "bad", "n", "n"⟩
      ⟨"1", "A", "a@x", "pw1"⟩ (by decide) (by decide) (by decide)⟩

/-- C6: for every updatePassword request that passes every check (new and
confirm match, the user exists, the old password matches) and whose
service update succeeds, the 200 response body is exactly
`{id, password_new, message}`, echoing the new plaintext password from
the request back to the client. -/
theorem updatePassword_success_echoes_plaintext
    (cfg : Config) (s : ServiceState) (req : UpdatePasswordReq) (u : User)
    (hmatch : req.password_new = req.password_new_confirm)
    (hfound : UsersService.getUser s req.id = some u)
    (hpm : cfg.passwordMatched req.password_old u.password = true) :
    (updatePasswordStep cfg s req).action =
      .send200 ⟨req.id, req.password_new, "password was succesfully updated"⟩ := by
  have hfind : (s.users.find? (fun v => v.id == req.id)).isSome = true := by
    simp [UsersService.getUser] at hfound
    simp [hfound]
  simp [updatePasswordStep, UsersController.updatePassword, encodeLookup,
    UsersService.updatePassword, hfound, hpm, hmatch, hfind, JSLookup.isFalsy]

/-- Concrete corollary of `updatePassword_success_echoes_plaintext`. -/
theorem updatePassword_success_echoes_plaintext_witness :
    (("n" : String) = "n"
      ∧ UsersService.getUser exState "1" = some ⟨"1", "A", "a@x", "pw1"⟩
      ∧ exCfg.passwordMatched "pw1" "pw1" = true)
    ∧ (updatePasswordStep exCfg exState ⟨"1", "pw1", "n", "n"⟩).action =
        .send200 ⟨"1", "n", "password was succesfully updated"⟩ :=
  ⟨⟨by decide, by decide, by decide⟩,
    updatePassword_success_echoes_plaintext exCfg exState ⟨"1", "pw1", "n", "n"⟩
      ⟨"1", "A", "a@x", "pw1"⟩ (by decide) (by decide) (by decide)⟩

/-- C10: for every existing id, the getUser handler sends the stored user
record verbatim as the 200 body — the whole `User` value produced by the
service, including its (hashed) `password` field; unlike createUser, no
field is stripped from the success response. -/
theorem getUser_returns_stored_record_verbatim
    (cfg : Config) (s : ServiceState) (id : String) (u : User)
    (hfound : UsersService.getUser s id = some u) :
    (getUserStep cfg s id).action = .send200 u
    ∧ ∃ body, (getUserStep cfg s id).action = .send200 body
        ∧ body.password = u.password := by
  refine ⟨?_, u, ?_, rfl⟩ <;>
    simp [getUserStep, UsersController.getUser, encodeLookup, hfound]

/-- Concrete corollary of `getUser_returns_stored_record_verbatim`. -/
theorem getUser_returns_stored_record_verbatim_witness :
    UsersService.getUser exState "1" = some ⟨"1", "A", "a@x", "pw1"⟩
    ∧ ((getUserStep exCfg exState "1").action =
          .send200 ⟨"1", "A", "a@x", "pw1"⟩
      ∧ ∃ body, (getUserStep exCfg exState "1").action = .send200 body
          ∧ body.password = "pw1") :=
  ⟨by decide,
    getUser_returns_stored_record_verbatim exCfg exState "1"
      ⟨"1", "A", "a@x", "pw1"⟩ (by decide)⟩

/-- C7: for every createUser request that passes validation (matching
passwords, a `null` email lookup) and whose service creation call
succeeds, the 200 response body is exactly `{name, email}` as taken from
the request; the body type `CreateUserBody` has no password field, so the
password is never included in the success response. -/
theorem createUser_success_body_name_email_only
    (req : CreateUserReq)
    (hpw : req.password = req.password_confirm) :
    (UsersController.createUser req (.ok .jsNull) (.ok true)).1 =
      .send200 ⟨req.name, req.email⟩ := by
  simp [UsersController.createUser, hpw]

/-- Concrete corollary of `createUser_success_body_name_email_only`. -/
theorem createUser_success_body_name_email_only_witness :
    ("p" : String) = "p"
    ∧ (UsersController.createUser ⟨"N", "n@x", "p", "p"⟩ (.ok .jsNull)
        (.ok true)).1 = .send200 ⟨"N", "n@x"⟩ :=
  ⟨rfl, createUser_success_body_name_email_only ⟨"N", "n@x", "p", "p"⟩ rfl⟩

/-- C8: a successful deleteUser on an id, followed by getUser on the same
id with no intervening operation, yields `UNPROCESSABLE_ENTITY`
("Unknown user"), whichever value the service uses to signal absence. -/
theorem deleteUser_then_getUser_unknown
    (cfg : Config) (s : ServiceState) (id : String)
    (hdel : (deleteUserStep cfg s id).action = .send200 ⟨id⟩) :
    (getUserStep cfg (deleteUserStep cfg s id).state id).action =
      .callNext (.typed ⟨.UNPROCESSABLE_ENTITY, "Unknown user"⟩) := by
  by_cases hfind : (s.users.find? (fun u => u.id == id)).isSome = true
  · have hstate : (deleteUserStep cfg s id).state =
        ⟨s.users.filter (fun u => u.id != id), s.nextId⟩ := by
      simp [deleteUserStep, UsersController.deleteUser,
        UsersService.deleteUser, hfind]
    have hnone : UsersService.getUser (deleteUserStep cfg s id).state id =
        none := by
      rw [hstate]
      simp only [UsersService.getUser, List.find?_eq_none]
      intro x hx
      have hmem := (List.mem_filter.mp hx).2
      simpa [bne_iff_ne] using hmem
    cases habs : cfg.absSignal <;>
      simp [getUserStep, UsersController.getUser, encodeLookup, hnone, habs,
        AbsSignal.toLookup]
  · exfalso
    rw [Bool.not_eq_true] at hfind
    simp [deleteUserStep, UsersController.deleteUser,
      UsersService.deleteUser, hfind] at hdel

/-- Concrete corollary of `deleteUser_then_getUser_unknown`. -/
theorem deleteUser_then_getUser_unknown_witness :
    (deleteUserStep exCfg exState "1").action = .send200 ⟨"1"⟩
    ∧ (getUserStep exCfg (deleteUserStep exCfg exState "1").state "1").action =
        .callNext (.typed ⟨.UNPROCESSABLE_ENTITY, "Unknown user"⟩) :=
  ⟨by decide, deleteUser_then_getUser_unknown exCfg exState "1" (by decide)⟩

/-- C5: updatePassword is a linear early-exit chain in the source order —
new/confirm mismatch (`INVALID_PASSWORD`, with no service call at all,
regardless of whether the user exists), then falsy user lookup
(`UNPROCESSABLE_ENTITY` "Unknown user"), then wrong old password
(`INVALID_PASSWORD` "wrong password", with no update call), then failed
service update (`SERVER`), and otherwise the 200 response. Each later
outcome requires every earlier check to have passed. -/
theorem updatePassword_linear_early_exit_chain
    (req : UpdatePasswordReq) (getRes : Except Exn JSLookup)
    (pmRes updRes : Except Exn Bool) :
    (req.password_new ≠ req.password_new_confirm →
      UsersController.updatePassword req getRes pmRes updRes =
        (.callNext
            (.typed ⟨.INVALID_PASSWORD,
              "Failed to update password, new password is not same"⟩),
          []))
    ∧ (∀ l, req.password_new = req.password_new_confirm →
        getRes = .ok l → l.isFalsy = true →
        UsersController.updatePassword req getRes pmRes updRes =
          (.callNext (.typed ⟨.UNPROCESSABLE_ENTITY, "Unknown user"⟩),
            [.getUser req.id]))
    ∧ (∀ u, req.password_new = req.password_new_confirm →
        getRes = .ok (.found u) → pmRes = .ok false →
        UsersController.updatePassword req getRes pmRes updRes =
          (.callNext
              (.typed ⟨.INVALID_PASSWORD,
                "Failed to update password, wrong password"⟩),
            [.getUser req.id]))
    ∧ (∀ u, req.password_new = req.password_new_confirm →
        getRes = .ok (.found u) → pmRes = .ok true → updRes = .ok false →
        UsersController.updatePassword req getRes pmRes updRes =
          (.callNext
              (.typed ⟨.SERVER, "password is not updated, Something is wrong"⟩),
            [.getUser req.id, .updatePassword req.id req.password_new]))
    ∧ (∀ u, req.password_new = req.password_new_confirm →
        getRes = .ok (.found u) → pmRes = .ok true → updRes = .ok true →
        UsersController.updatePassword req getRes pmRes updRes =
          (.send200
              ⟨req.id, req.password_new, "password was succesfully updated"⟩,
            [.getUser req.id, .updatePassword req.id req.password_new])) := by
  refine ⟨?_, ?_, ?_, ?_, ?_⟩
  · intro h
    have hb : (req.password_new != req.password_new_confirm) = true := by
      simpa [bne_iff_ne] using h
    simp [UsersController.updatePassword, hb]
  · intro l h hget hf
    subst hget
    simp [UsersController.updatePassword, h, hf]
  · intro u h hget hpm
    subst hget; subst hpm
    simp [UsersController.updatePassword, h, JSLookup.isFalsy]
  · intro u h hget hpm hupd
    subst hget; subst hpm; subst hupd
    simp [UsersController.updatePassword, h, JSLookup.isFalsy]
  · intro u h hget hpm hupd
    subst hget; subst hpm; subst hupd
    simp [UsersController.updatePassword, h, JSLookup.isFalsy]

/-- Concrete corollary of `updatePassword_linear_early_exit_chain`: a
new/confirm mismatch on a state where the user id does not even exist
still produces `INVALID_PASSWORD` with an empty call trace, and the full
success chain produces the 200 response. -/
theorem updatePassword_linear_early_exit_chain_witness :
    (("n" : String) ≠ "m"
      ∧ UsersController.updatePassword ⟨"9", "o", "n", "m"⟩ (.ok .jsNull)
          (.ok false) (.ok false) =
        (.callNext
            (.typed ⟨.INVALID_PASSWORD,
              "Failed to update password, new password is not same"⟩),
          []))
    ∧ UsersController.updatePassword ⟨"1", "o", "n", "n"⟩
        (.ok (.found ⟨"1", "A", "a@x", "pw1"⟩)) (.ok true) (.ok true) =
      (.send200 ⟨"1", "n", "password was succesfully updated"⟩,
        [.getUser "1", .updatePassword "1" "n"]) :=
  ⟨⟨by decide,
      (updatePassword_linear_early_exit_chain ⟨"9", "o", "n", "m"⟩ (.ok .jsNull)
          (.ok false) (.ok false)).1 (by decide)⟩,
    (updatePassword_linear_early_exit_chain ⟨"1", "o", "n", "n"⟩
          (.ok (.found ⟨"1", "A", "a@x", "pw1"⟩)) (.ok true) (.ok true)).2.2.2.2
      ⟨"1", "A", "a@x", "pw1"⟩ rfl rfl rfl rfl⟩

/-- Any handler action is a single 200 response or a single forwarding to
the next middleware — the two constructors of `HandlerAction`. -/
lemma handlerAction_total {β : Type} (x : HandlerAction β) :
    (∃ b, x = .send200 b) ∨ (∃ e2, x = .callNext e2) := by
  cases x with
  | send200 b => exact Or.inl ⟨b, rfl⟩
  | callNext e2 => exact Or.inr ⟨e2, rfl⟩

/-- C9: every handler, for every input and every collaborator outcome,
either sends exactly one 200 JSON response or forwards an error to the
next middleware; and whenever a collaborator call throws an exception,
that exception is forwarded unchanged via `next(error)` (never swallowed,
never propagated to the handler's caller): the first nine conjuncts cover
every collaborator call site of the six handlers, the last six state
totality of each handler over arbitrary outcomes. -/
theorem handlers_forward_every_error_unchanged
    (e : Exn) (id : String) (creq : CreateUserReq) (ureq : UpdateUserReq)
    (preq : UpdatePasswordReq) (u : User)
    (lres : Except Exn (List User)) (gres : Except Exn JSLookup)
    (cres bres dres pmRes updRes : Except Exn Bool) :
    ((UsersController.getUsers (.error e)).1 = .callNext e)
    ∧ ((UsersController.getUser id (.error e)).1 = .callNext e)
    ∧ (creq.password = creq.password_confirm →
        (UsersController.createUser creq (.error e) cres).1 = .callNext e)
    ∧ (creq.password = creq.password_confirm →
        (UsersController.createUser creq (.ok .jsNull) (.error e)).1 =
          .callNext e)
    ∧ ((UsersController.updateUser ureq (.error e)).1 = .callNext e)
    ∧ ((UsersController.deleteUser id (.error e)).1 = .callNext e)
    ∧ (preq.password_new = preq.password_new_confirm →
        (UsersController.updatePassword preq (.error e) pmRes updRes).1 =
          .callNext e)
    ∧ (preq.password_new = preq.password_new_confirm →
        (UsersController.updatePassword preq (.ok (.found u)) (.error e)
            updRes).1 = .callNext e)
    ∧ (preq.password_new = preq.password_new_confirm →
        (UsersController.updatePassword preq (.ok (.found u)) (.ok true)
            (.error e)).1 = .callNext e)
    ∧ ((∃ b, (UsersController.getUsers lres).1 = .send200 b)
        ∨ (∃ e2, (UsersController.getUsers lres).1 = .callNext e2))
    ∧ ((∃ b, (UsersController.getUser id gres).1 = .send200 b)
        ∨ (∃ e2, (UsersController.getUser id gres).1 = .callNext e2))
    ∧ ((∃ b, (UsersController.createUser creq gres cres).1 = .send200 b)
        ∨ (∃ e2, (UsersController.createUser creq gres cres).1 = .callNext e2))
    ∧ ((∃ b, (UsersController.updateUser ureq bres).1 = .send200 b)
        ∨ (∃ e2, (UsersController.updateUser ureq bres).1 = .callNext e2))
    ∧ ((∃ b, (UsersController.deleteUser id dres).1 = .send200 b)
        ∨ (∃ e2, (UsersController.deleteUser id dres).1 = .callNext e2))
    ∧ ((∃ b, (UsersController.updatePassword preq gres pmRes updRes).1 =
            .send200 b)
        ∨ (∃ e2, (UsersController.updatePassword preq gres pmRes updRes).1 =
            .callNext e2)) := by
  refine ⟨?_, ?_, ?_, ?_, ?_, ?_, ?_, ?_, ?_,
    handlerAction_total _, handlerAction_total _, handlerAction_total _,
    handlerAction_total _, handlerAction_total _, handlerAction_total _⟩
  · simp [UsersController.getUsers]
  · simp [UsersController.getUser]
  · intro h; simp [UsersController.createUser, h]
  · intro h; simp [UsersController.createUser, h]
  · simp [UsersController.updateUser]
  · simp [UsersController.deleteUser]
  · intro h; simp [UsersController.updatePassword, h]
  · intro h; simp [UsersController.updatePassword, h, JSLookup.isFalsy]
  · intro h; simp [UsersController.updatePassword, h, JSLookup.isFalsy]

/-- Concrete corollary of `handlers_forward_every_error_unchanged`: a
service exception raised during the updatePassword lookup is forwarded
unchanged, and getUsers forwards its exception unchanged. -/
theorem handlers_forward_every_error_unchanged_witness :
    (UsersController.getUsers (.error (.thrown "db down"))).1 =
      .callNext (.thrown "db down")
    ∧ (("n" : String) = "n"
      ∧ (UsersController.updatePassword ⟨"1", "o", "n", "n"⟩
          (.error (.thrown "db down")) (.ok true) (.ok true)).1 =
        .callNext (.thrown "db down")) :=
  ⟨(handlers_forward_every_error_unchanged (.thrown "db down") "1"
      ⟨"N", "n@x", "p", "p"⟩ ⟨"1", "A", "a@x"⟩ ⟨"1", "o", "n", "n"⟩
      ⟨"1", "A", "a@x", "pw1"⟩ (.ok []) (.ok .jsNull) (.ok true) (.ok true)
      (.ok true) (.ok true) (.ok true)).1,
    ⟨rfl,
      (handlers_forward_every_error_unchanged (.thrown "db down") "1"
          ⟨"N", "n@x", "p", "p"⟩ ⟨"1", "A", "a@x"⟩ ⟨"1", "o", "n", "n"⟩
          ⟨"1", "A", "a@x", "pw1"⟩ (.ok []) (.ok .jsNull) (.ok true) (.ok true)
          (.ok true) (.ok true) (.ok true)).2.2.2.2.2.2.1 rfl⟩⟩

/-- C3 counterexample: the source branches on the email lookup being
`!== null`, so when the service signals absence with `undefined`, the
handler raises `EMAIL_ALREADY_TAKEN` on the empty store, where no user
with the email exists — the claimed iff does not hold for every way of
signalling absence. -/
theorem createUser_email_taken_despite_absent_email :
    UsersService.getUserByEmail emptyState "e@x" = none
    ∧ (createUserStep exCfgUndef emptyState ⟨"N", "e@x", "p", "p"⟩).action =
        .callNext
          (.typed ⟨.EMAIL_ALREADY_TAKEN,
            "Failed to create user, email is already taken"⟩)
    ∧ SvcCall.createUser "N" "e@x" "p" ∉
        (createUserStep exCfgUndef emptyState ⟨"N", "e@x", "p", "p"⟩).trace := by
  decide

/-- C3 amended: for every createUser request with matching passwords,
when the service signals an absent lookup with `null`, the handler raises
`EMAIL_ALREADY_TAKEN` iff a user with the given email already exists (and
in that case storage is unchanged, so no duplicate is created); when no
such user exists it proceeds to the creation call. -/
theorem createUser_email_taken_iff_email_exists_when_null
    (cfg : Config) (s : ServiceState) (req : CreateUserReq)
    (habs : cfg.absSignal = .null)
    (hpw : req.password = req.password_confirm) :
    ((createUserStep cfg s req).action =
        .callNext
          (.typed ⟨.EMAIL_ALREADY_TAKEN,
            "Failed to create user, email is already taken"⟩)
      ↔ (UsersService.getUserByEmail s req.email).isSome = true)
    ∧ ((UsersService.getUserByEmail s req.email).isSome = true →
        (createUserStep cfg s req).state = s
        ∧ (createUserStep cfg s req).trace = [.getUserByEmail req.email])
    ∧ (UsersService.getUserByEmail s req.email = none →
        SvcCall.createUser req.name req.email req.password ∈
          (createUserStep cfg s req).trace) := by
  cases hlk : UsersService.getUserByEmail s req.email with
  | none =>
    simp [createUserStep, UsersController.createUser, UsersService.createUser,
      encodeLookup, habs, hpw, hlk, AbsSignal.toLookup, bne_iff_ne]
  | some u =>
    simp [createUserStep, UsersController.createUser, encodeLookup, habs, hpw,
      hlk, AbsSignal.toLookup, bne_iff_ne]

/-- Concrete corollary of `createUser_email_taken_iff_email_exists_when_null`:
with `null` absence signalling, a taken email yields the error with the
store unchanged, as `a@x` is already stored in `exState`. -/
theorem createUser_email_taken_iff_email_exists_when_null_witness :
    (exCfg.absSignal = .null ∧ ("p" : String) = "p"
      ∧ (UsersService.getUserByEmail exState "a@x").isSome = true)
    ∧ ((createUserStep exCfg exState ⟨"N", "a@x", "p", "p"⟩).action =
        .callNext
          (.typed ⟨.EMAIL_ALREADY_TAKEN,
            "Failed to create user, email is already taken"⟩)
      ∧ (createUserStep exCfg exState ⟨"N", "a@x", "p", "p"⟩).state = exState) :=
  ⟨⟨rfl, rfl, by decide⟩,
    ⟨((createUser_email_taken_iff_email_exists_when_null exCfg exState
          ⟨"N", "a@x", "p", "p"⟩ rfl rfl).1).mpr (by decide),
      ((createUser_email_taken_iff_email_exists_when_null exCfg exState
          ⟨"N", "a@x", "p", "p"⟩ rfl rfl).2.1 (by decide)).1⟩⟩

/-- C2 counterexample: starting from a state with two users of distinct
emails, a single `updateUser` handler invocation that sets the first
user's email to the second user's email succeeds (no duplicate-email
check on the update path) and leaves the store with a duplicated email. -/
theorem updateUser_can_break_email_uniqueness :
    EmailsUnique exState
    ∧ (updateUserStep exCfg exState ⟨"1", "A", "b@x"⟩).action = .send200 ⟨"1"⟩
    ∧ ¬ EmailsUnique (runOps exCfg exState [.update ⟨"1", "A", "b@x"⟩]) := by
  decide

/-- An absent email lookup means the email is not among stored emails. -/
lemma email_not_mem_of_getUserByEmail_none
    (s : ServiceState) (e : String)
    (h : UsersService.getUserByEmail s e = none) :
    e ∉ s.users.map (fun u => u.email) := by
  simp only [UsersService.getUserByEmail, List.find?_eq_none] at h
  simp only [List.mem_map, not_exists]
  rintro u ⟨hu, he⟩
  exact absurd (by simp [he]) (h u hu)

/-- The createUser handler preserves email uniqueness of the store: it
creates a user only after the duplicate-email check has passed on a
`null` lookup, and otherwise leaves the store unchanged. -/
lemma createUserStep_preserves_emailsUnique
    (cfg : Config) (s : ServiceState) (req : CreateUserReq)
    (h : EmailsUnique s) :
    EmailsUnique (createUserStep cfg s req).state := by
  by_cases hpw : (req.password != req.password_confirm) = true
  · simpa [createUserStep, UsersController.createUser, hpw] using h
  · rw [Bool.not_eq_true] at hpw
    cases habs : cfg.absSignal with
    | null =>
      cases hlk : UsersService.getUserByEmail s req.email with
      | none =>
        have hnotmem := email_not_mem_of_getUserByEmail_none s req.email hlk
        simp [createUserStep, UsersController.createUser,
          UsersService.createUser, encodeLookup, habs, hlk, hpw,
          AbsSignal.toLookup, EmailsUnique]
        exact ⟨fun u hu he => absurd (List.mem_map.mpr ⟨u, hu, he⟩) hnotmem, h⟩
      | some u =>
        simpa [createUserStep, UsersController.createUser, encodeLookup, habs,
          hlk, hpw, AbsSignal.toLookup, bne_iff_ne] using h
    | undef =>
      cases hlk : UsersService.getUserByEmail s req.email with
      | none =>
        simpa [createUserStep, UsersController.createUser, encodeLookup, habs,
          hlk, hpw, AbsSignal.toLookup, bne_iff_ne] using h
      | some u =>
        simpa [createUserStep, UsersController.createUser, encodeLookup, habs,
          hlk, hpw, AbsSignal.toLookup, bne_iff_ne] using h

/-- The deleteUser handler preserves email uniqueness of the store: the
surviving users' emails are a sublist of the previous ones. -/
lemma deleteUserStep_preserves_emailsUnique
    (cfg : Config) (s : ServiceState) (id : String)
    (h : EmailsUnique s) :
    EmailsUnique (deleteUserStep cfg s id).state := by
  by_cases hfind : (s.users.find? (fun u => u.id == id)).isSome = true
  · have hstate : (deleteUserStep cfg s id).state =
        ⟨s.users.filter (fun u => u.id != id), s.nextId⟩ := by
      simp [deleteUserStep, UsersController.deleteUser,
        UsersService.deleteUser, hfind]
    rw [hstate]
    exact ((List.filter_sublist _).map _).nodup h
  · rw [Bool.not_eq_true] at hfind
    simpa [deleteUserStep, UsersController.deleteUser,
      UsersService.deleteUser, hfind] using h

/-- The updatePassword handler preserves email uniqueness of the store:
its only mutation replaces a stored credential and never an email. -/
lemma updatePasswordStep_preserves_emailsUnique
    (cfg : Config) (s : ServiceState) (req : UpdatePasswordReq)
    (h : EmailsUnique s) :
    EmailsUnique (updatePasswordStep cfg s req).state := by
  have hm : ((UsersService.updatePassword cfg s req.id req.password_new).1.users.map
        (fun u => u.email)) = s.users.map (fun u => u.email) := by
    simp only [UsersService.updatePassword]
    by_cases hfind : (s.users.find? (fun u => u.id == req.id)).isSome = true
    · simp only [hfind, if_true, List.map_map]
      refine List.map_congr_left (fun u hu => ?_)
      by_cases hid : u.id = req.id <;> simp [hid]
    · rw [Bool.not_eq_true] at hfind
      simp [hfind]
  simp only [updatePasswordStep, EmailsUnique] at h ⊢
  split
  · rw [hm]; exact h
  · exact h

/-- Every handler invocation other than `updateUser` preserves email
uniqueness of the store. -/
lemma runOp_preserves_emailsUnique
    (cfg : Config) (s : ServiceState) (op : Op)
    (hop : op.isUpdate = false) (h : EmailsUnique s) :
    EmailsUnique (runOp cfg s op) := by
  cases op with
  | list => exact h
  | get id => exact h
  | create req => exact createUserStep_preserves_emailsUnique cfg s req h
  | update req => simp [Op.isUpdate] at hop
  | delete id => exact deleteUserStep_preserves_emailsUnique cfg s id h
  | changePassword req =>
    exact updatePasswordStep_preserves_emailsUnique cfg s req h

/-- C2 amended: starting from a state in which every user's email is
distinct, every sequence of handler operations avoiding `updateUser`
preserves email uniqueness; `updateUser`, which performs no
duplicate-email check, can introduce a duplicate (see the
counterexample), so it must be excluded from the invariant. -/
theorem emails_unique_preserved_without_updateUser
    (cfg : Config) (s : ServiceState) (ops : List Op)
    (hops : ∀ op ∈ ops, op.isUpdate = false)
    (h : EmailsUnique s) :
    EmailsUnique (runOps cfg s ops) := by
  induction ops generalizing s with
  | nil => exact h
  | cons op rest ih =>
    simp only [runOps]
    exact ih (runOp cfg s op)
      (fun o ho => hops o (List.mem_cons_of_mem _ ho))
      (runOp_preserves_emailsUnique cfg s op (hops op (List.mem_cons_self _ _)) h)

/-- Concrete corollary of `emails_unique_preserved_without_updateUser`
on a sequence exercising create, delete, get and changePassword. -/
theorem emails_unique_preserved_without_updateUser_witness :
    ((∀ op ∈ ([.create ⟨"N", "n@x", "p", "p"⟩, .delete "1", .get "2",
        .changePassword ⟨"2", "pw2", "q", "q"⟩] : List Op),
        op.isUpdate = false)
      ∧ EmailsUnique exState)
    ∧ EmailsUnique (runOps exCfg exState
        [.create ⟨"N", "n@x", "p", "p"⟩, .delete "1", .get "2",
          .changePassword ⟨"2", "pw2", "q", "q"⟩]) :=
  ⟨⟨by decide, by decide⟩,
    emails_unique_preserved_without_updateUser exCfg exState
      [.create ⟨"N", "n@x", "p", "p"⟩, .delete "1", .get "2",
        .changePassword ⟨"2", "pw2", "q", "q"⟩]
      (by decide) (by decide)⟩
